import Mathlib

/-!
Verification of the core of the polymarket-arb repository: a shallow
embedding in Lean 4 of the opportunity detector (src/scanner.rs), the
market-pair registry refresh (src/scanner.rs), the dual-leg execution
engine (src/api/client.rs), the orchestrator dispatch and reconnection
backoff loop (src/main.rs) and the feed client connection guard
(src/websocket.rs), together with theorems settling the stated
properties of these components.

Modelling conventions:
- The type rust_decimal::Decimal is an exact scaled-decimal
  representation; every operation the code performs on it (addition,
  subtraction, multiplication, min, comparison) is exact on the
  magnitudes involved, so prices and sizes are modelled as Rat.
- Rust String values that are only carried around (identifiers) are
  Lean String; the market description, which the code slices by BYTE
  index, is modelled as a list of characters so that UTF-8 byte
  boundaries can be expressed through Char.utf8Size.
- A panic (for the detector) or an Err return (for the venue calls) is
  modelled as the error case of Except String.
- The ambient clock read through chrono::Utc::now() is an explicit
  parameter named now; network responses are explicit parameters.
- The tracing log macros evaluate their arguments only when the level
  is enabled; main.rs installs an INFO default filter, so the arguments
  of info! calls are modelled as always evaluated while the arguments
  of debug! calls are gated by an explicit debug_enabled flag.
-/

attribute [local semireducible] Rat.add Rat.sub Rat.mul Rat.inv Rat.ofScientific

deriving instance DecidableEq for Except

/-- Decimal prices and sizes, modelled exactly (src/api/types.rs uses
rust_decimal::Decimal, an exact decimal representation). -/
abbrev Decimal := Rat

/-- One price level of an order book (src/api/types.rs, OrderBookEntry). -/
structure OrderBookEntry where
  price : Decimal
  size : Decimal
deriving Repr, DecidableEq

/-- Order book summary for one token (src/api/types.rs, OrderBook). -/
structure OrderBook where
  market : String
  asset_id : String
  bids : List OrderBookEntry
  asks : List OrderBookEntry
  hash : String
  timestamp : String
deriving Repr, DecidableEq

/-- Cached market pair (src/scanner.rs, MarketPair). The description is
kept as a list of characters so byte-index slicing can be modelled. -/
structure MarketPair where
  condition_id : String
  yes_token_id : String
  no_token_id : String
  description : List Char
deriving Repr, DecidableEq

/-- A detected opportunity (src/api/types.rs, ArbitrageOpportunity).
The timestamp field records the clock value at detection time. -/
structure ArbitrageOpportunity where
  market_id : String
  yes_token_id : String
  no_token_id : String
  yes_ask_price : Decimal
  no_ask_price : Decimal
  combined_price : Decimal
  profit_per_share : Decimal
  max_size : Decimal
  timestamp : Nat
deriving Repr, DecidableEq

/-- Expected profit for a given size (src/api/types.rs,
ArbitrageOpportunity::expected_profit). -/
def ArbitrageOpportunity.expected_profit (self : ArbitrageOpportunity)
    (size : Decimal) : Decimal :=
  self.profit_per_share * size

/-- Bot configuration (src/config.rs, Config). -/
structure Config where
  private_key : String
  max_combined_price : Decimal
  min_profit_threshold : Decimal
  order_size : Decimal
  poll_interval_ms : Nat
  use_websocket : Bool
  max_markets : Nat
  crypto_only : Bool
  dry_run : Bool
deriving Repr, DecidableEq

/-- The default configuration (src/config.rs, impl Default for Config). -/
def Config.default : Config :=
  { private_key := ""
    max_combined_price := (99 : Rat) / 100
    min_profit_threshold := (5 : Rat) / 1000
    order_size := 10
    poll_interval_ms := 2000
    use_websocket := true
    max_markets := 50
    crypto_only := true
    dry_run := true }

/-- Total UTF-8 byte length of a string, as Rust str::len reports it. -/
def byteLen (s : List Char) : Nat := (s.map Char.utf8Size).sum

/-- Whether byte index n is a character boundary of s, in the sense of
Rust str::is_char_boundary: n must be the byte length of some prefix. -/
def isCharBoundary (s : List Char) (n : Nat) : Bool :=
  (List.range (s.length + 1)).any (fun k => byteLen (s.take k) == n)

/-- Model of the log-argument expression
&pair.description[..pair.description.len().min(30)] used in the early
return branches of check_arbitrage (src/scanner.rs lines 152, 159, 168
and 175). Rust string slicing panics when the end index is not a
character boundary; the panic is modelled as the error case. -/
def logDescSlice (description : List Char) : Except String Unit :=
  if isCharBoundary description (min (byteLen description) 30) then .ok ()
  else .error "byte index 30 is not a char boundary"

/-- The same log-argument expression inside a debug! macro, whose
arguments are evaluated only when DEBUG logging is enabled. -/
def logDescSliceDebug (debug_enabled : Bool) (description : List Char) :
    Except String Unit :=
  if debug_enabled then logDescSlice description else .ok ()

/-- The opportunity detector (src/scanner.rs, check_arbitrage).

It looks up both books in the token-to-book map, takes the best (first)
ask on each side, computes the combined price and the profit per share,
and signals an opportunity exactly when the combined price is below
max_combined_price and the profit per share is at least
min_profit_threshold; max_size is the smaller of the two ask sizes.
Each early-return branch logs a byte-sliced description (a potential
panic, see logDescSlice); the missing-book branches use debug!, the
empty-ask branches use info!. The success path logs only a
character-based truncation, which cannot panic, and stamps the result
with the current clock value now (chrono::Utc::now() in the source). -/
def check_arbitrage (cfg : Config) (debug_enabled : Bool) (pair : MarketPair)
    (book_map : List (String × OrderBook)) (now : Nat) :
    Except String (Option ArbitrageOpportunity) :=
  match book_map.lookup pair.yes_token_id with
  | none => (logDescSliceDebug debug_enabled pair.description).map (fun _ => none)
  | some yes_book =>
    match book_map.lookup pair.no_token_id with
    | none => (logDescSliceDebug debug_enabled pair.description).map (fun _ => none)
    | some no_book =>
      match yes_book.asks.head? with
      | none => (logDescSlice pair.description).map (fun _ => none)
      | some yes_ask =>
        match no_book.asks.head? with
        | none => (logDescSlice pair.description).map (fun _ => none)
        | some no_ask =>
          let combined_price := yes_ask.price + no_ask.price
          let profit_per_share := 1 - combined_price
          if combined_price < cfg.max_combined_price ∧
              cfg.min_profit_threshold ≤ profit_per_share then
            .ok (some
              { market_id := pair.condition_id
                yes_token_id := pair.yes_token_id
                no_token_id := pair.no_token_id
                yes_ask_price := yes_ask.price
                no_ask_price := no_ask.price
                combined_price := combined_price
                profit_per_share := profit_per_share
                max_size := min yes_ask.size no_ask.size
                timestamp := now })
          else
            .ok none

/-- Forget the detection clock stamp of an opportunity, keeping every
field computed from the market inputs. -/
def eraseTimestamp (opp : ArbitrageOpportunity) : ArbitrageOpportunity :=
  { opp with timestamp := 0 }

/-- Outcome token of a market (src/api/types.rs, Token). -/
structure Token where
  token_id : String
  outcome : List Char
  price : Option Decimal := none
  winner : Bool := false
deriving Repr, DecidableEq

/-- Market data from the venue (src/api/types.rs, Market). Fields that
no modelled code path reads carry defaults so fixtures stay short. -/
structure Market where
  condition_id : String
  question_id : String := ""
  tokens : List Token
  minimum_order_size : Decimal := 0
  minimum_tick_size : Decimal := 0
  description : Option (List Char) := none
  category : Option (List Char) := none
  end_date_iso : Option String := none
  game_start_time : Option String := none
  question : Option (List Char) := none
  market_slug : Option String := none
  active : Bool := true
  closed : Bool := false
  accepting_orders : Bool := true
deriving Repr, DecidableEq

/-- Extraction of the YES/NO token pair of a market (src/scanner.rs,
extract_market_pair): a market qualifies only when it has exactly two
outcome tokens whose lowercased outcome labels are yes and no (the
source lowercases with str::to_lowercase; the tokens compared against
are ASCII, modelled with Char.toLower). -/
def extract_market_pair (market : Market) : Option MarketPair :=
  if market.tokens.length ≠ 2 then none
  else
    let pick := market.tokens.foldl
      (fun (acc : Option String × Option String) (token : Token) =>
        let low := token.outcome.map Char.toLower
        if low = "yes".data then (some token.token_id, acc.2)
        else if low = "no".data then (acc.1, some token.token_id)
        else acc)
      (none, none)
    match pick with
    | (some yes_id, some no_id) =>
      some
        { condition_id := market.condition_id
          yes_token_id := yes_id
          no_token_id := no_id
          description := market.question.getD "Unknown".data }
    | _ => none

/-- The market cache (src/scanner.rs, market_cache): a concurrent map
from condition id to market pair, modelled as a lookup function. -/
abbrev MarketCache := String → Option MarketPair

/-- Keyed insertion into the cache, as DashMap::insert: the new value
replaces any existing entry under the same key and nothing else. -/
def cacheInsert (cache : MarketCache) (key : String) (pair : MarketPair) :
    MarketCache :=
  fun k => if k = key then some pair else cache k

/-- One iteration of the refresh loop body (src/scanner.rs lines 50 to
55): a qualifying market is inserted and counted, anything else is
skipped. -/
def refreshStep (acc : MarketCache × Nat) (market : Market) : MarketCache × Nat :=
  match extract_market_pair market with
  | some pair => (cacheInsert acc.1 pair.condition_id pair, acc.2 + 1)
  | none => acc

/-- The registry refresh (src/scanner.rs, refresh_markets): the fetched
market list (an explicit parameter here) is truncated to max_markets
and its qualifying pairs are inserted one by one into the existing
cache; the function returns the new cache and the insert count. -/
def refresh_markets (cfg : Config) (cache : MarketCache)
    (markets : List Market) : MarketCache × Nat :=
  (markets.take cfg.max_markets).foldl refreshStep (cache, 0)

/-- Last pair in the list carrying the given condition id, mirroring
the fact that later DashMap inserts overwrite earlier ones. -/
def lastAssoc (k : String) : List MarketPair → Option MarketPair
  | [] => none
  | p :: rest =>
    match lastAssoc k rest with
    | some q => some q
    | none => if p.condition_id = k then some p else none

/-- Order side (src/api/types.rs, Side). -/
inductive Side where
  | Buy
  | Sell
deriving Repr, DecidableEq

/-- Per-order response of the venue SDK (polymarket_client_sdk,
PostOrderResponse), with the fields client.rs reads. -/
structure PostOrderResponse where
  success : Bool
  error_msg : Option String
  order_id : String
  transaction_hashes : List String
  making_amount : Decimal := 0
deriving Repr, DecidableEq

/-- Order response of this repository (src/api/types.rs, OrderResponse). -/
structure OrderResponse where
  success : Bool
  error_msg : Option String
  order_id : Option String
  transaction_hashes : Option (List String)
deriving Repr, DecidableEq

/-- A built and signed market order for one leg (the observable content
of build_and_sign_order in src/api/client.rs: token, quote-currency
amount and side of a fill-or-kill market order; the signature itself is
produced by the external signer and carries no information the engine
branches on). -/
structure LegOrder where
  token_id : String
  usdc_amount : Decimal
  side : Side
deriving Repr, DecidableEq

/-- Severity of an emitted log event, in increasing order. -/
inductive LogSeverity where
  | debugLevel
  | infoLevel
  | warnLevel
  | errorLevel
deriving Repr, DecidableEq

/-- The partial-execution alert raised by handle_partial_execution in
src/api/client.rs (the error! call on lines 387 to 391), recording the
market and the side reported as unhedged. -/
structure Alert where
  severity : LogSeverity
  market_id : String
  unhedged_side : String
deriving Repr, DecidableEq

/-- Build and sign one leg (src/api/client.rs, build_and_sign_order):
a fill-or-kill market order in quote currency for the given token. -/
def build_and_sign_order (token_id : String) (usdc_amount : Decimal)
    (side : Side) : LegOrder :=
  { token_id := token_id, usdc_amount := usdc_amount, side := side }

/-- Conversion of one venue submission outcome (src/api/client.rs,
convert_response): an SDK error or an empty response list becomes a
failed OrderResponse; otherwise the first response is converted. -/
def convert_response (response : Except String (List PostOrderResponse)) :
    OrderResponse :=
  match response with
  | .ok responses =>
    match responses.head? with
    | some resp =>
      { success := resp.success
        error_msg := resp.error_msg
        order_id := some resp.order_id
        transaction_hashes :=
          if resp.transaction_hashes.isEmpty then none
          else some resp.transaction_hashes }
    | none =>
      { success := false
        error_msg := some "Empty response from server"
        order_id := none
        transaction_hashes := none }
  | .error e =>
    { success := false
      error_msg := some e
      order_id := none
      transaction_hashes := none }

/-- The partial-execution handler (src/api/client.rs,
handle_partial_execution): the failed side is read off yes_result and
the alert names the OTHER side as unhedged. -/
def handle_partial_execution (yes_result no_result : OrderResponse)
    (opportunity : ArbitrageOpportunity) : Alert :=
  let failed_side := if yes_result.success then "NO" else "YES"
  { severity := .errorLevel
    market_id := opportunity.market_id
    unhedged_side := if failed_side = "NO" then "YES" else "NO" }

/-- Everything observable about one run of the dual-leg engine: the two
built orders, the two converted leg results and the emitted alerts. -/
structure ExecOutcome where
  yes_order : LegOrder
  no_order : LegOrder
  yes_result : OrderResponse
  no_result : OrderResponse
  alerts : List Alert
deriving Repr, DecidableEq

/-- The dual-leg execution engine (src/api/client.rs,
execute_arbitrage), after both legs were built successfully: each leg
is priced at size times that leg ask price (the size parameter is used
as given), both submissions are issued and converted, and a partial
execution (exactly one success) raises the alert of
handle_partial_execution. The two venue responses are explicit
parameters. -/
def execute_arbitrage (opportunity : ArbitrageOpportunity) (size : Decimal)
    (yes_response no_response : Except String (List PostOrderResponse)) :
    ExecOutcome :=
  let yes_usdc := size * opportunity.yes_ask_price
  let no_usdc := size * opportunity.no_ask_price
  let yes_order := build_and_sign_order opportunity.yes_token_id yes_usdc .Buy
  let no_order := build_and_sign_order opportunity.no_token_id no_usdc .Buy
  let yes_result := convert_response yes_response
  let no_result := convert_response no_response
  { yes_order := yes_order
    no_order := no_order
    yes_result := yes_result
    no_result := no_result
    alerts :=
      if yes_result.success ≠ no_result.success then
        [handle_partial_execution yes_result no_result opportunity]
      else [] }

/-- Statistics of the running bot (src/main.rs, BotStats). -/
structure BotStats where
  opportunities_found : Nat := 0
  trades_executed : Nat := 0
  trades_successful : Nat := 0
  total_profit : Decimal := 0
  scans_completed : Nat := 0
deriving Repr, DecidableEq

/-- A record of one invocation of the execution engine. -/
structure EngineCall where
  opportunity : ArbitrageOpportunity
  size : Decimal
deriving Repr, DecidableEq

/-- Behavior of the venue during one trade: either building and signing
a leg fails (execute_arbitrage returns Err before submitting anything)
or both legs are submitted and the venue answers each one. -/
inductive VenueOutcome where
  | buildFailure (error : String)
  | submitted (yes_response no_response : Except String (List PostOrderResponse))
deriving DecidableEq

/-- The opportunity dispatch of the orchestrator (src/main.rs,
handle_opportunity): in dry-run mode it returns before any execution;
otherwise the size is the minimum of the configured order size and the
opportunity max_size, sizes below one share are skipped, and on
execution trades_executed is incremented while trades_successful and
total_profit grow only when both legs succeeded. The returned list
records the engine invocations made. -/
def handle_opportunity (cfg : Config) (opp : ArbitrageOpportunity)
    (stats : BotStats) (venue : VenueOutcome) : BotStats × List EngineCall :=
  if cfg.dry_run then (stats, [])
  else
    let size := min cfg.order_size opp.max_size
    if size < 1 then (stats, [])
    else
      let stats1 := { stats with trades_executed := stats.trades_executed + 1 }
      let stats2 :=
        match venue with
        | .buildFailure _ => stats1
        | .submitted yes_response no_response =>
          let out := execute_arbitrage opp size yes_response no_response
          if out.yes_result.success && out.no_result.success then
            { stats1 with
              trades_successful := stats1.trades_successful + 1
              total_profit := stats1.total_profit + opp.expected_profit size }
          else stats1
      (stats2, [{ opportunity := opp, size := size }])

/-- Initial reconnection delay in seconds (src/main.rs line 193). -/
def initial_reconnect_delay : Nat := 1

/-- Reconnection delay cap in seconds (src/main.rs line 194). -/
def max_reconnect_delay : Nat := 60

/-- The backoff update run after every sleep (src/main.rs line 232):
the delay doubles, capped at the maximum. -/
def next_reconnect_delay (d : Nat) : Nat :=
  min (d * 2) max_reconnect_delay

/-- Delays slept by the reconnection loop of run_websocket_mode
(src/main.rs lines 196 to 233), one per loop iteration, given the
current delay and the outcome of each connection attempt (true when
the connection succeeded before eventually closing): a success resets
the delay to the initial value before the sleep, and after every sleep
the delay doubles up to the cap. -/
def ws_loop_delays : Nat → List Bool → List Nat
  | _, [] => []
  | d, connected :: rest =>
    let slept := if connected then initial_reconnect_delay else d
    slept :: ws_loop_delays (next_reconnect_delay slept) rest

/-- Observable side effects of WsClient::connect before it returns. -/
inductive WsAction where
  | transportConnect
  | sendSubscribe (assets_ids : List String)
deriving Repr, DecidableEq

/-- The feed client connection (src/websocket.rs, WsClient::connect):
an empty token list is rejected up front; otherwise the transport
connection is attempted (its outcome is the explicit transport
parameter) and on success one subscription message naming all tokens
is sent. -/
def WsClient.connect (token_ids : List String)
    (transport : Except String Unit) : List WsAction × Except String Unit :=
  if token_ids.isEmpty then ([], .error "No token IDs to subscribe to")
  else
    match transport with
    | .error e => ([.transportConnect], .error e)
    | .ok _ => ([.transportConnect, .sendSubscribe token_ids], .ok ())

/-! Concrete fixtures used by witnesses and counterexamples. -/

/-- The default configuration, used by the concrete fixtures. -/
def cfg0 : Config := Config.default

/-- The default configuration with dry-run off, for execution fixtures. -/
def cfgLive : Config := { Config.default with dry_run := false }

/-- Best ask of the YES fixture book: price 0.40, size 100. -/
def ya0 : OrderBookEntry := { price := (2 : Rat) / 5, size := 100 }

/-- Best ask of the NO fixture book: price 0.55, size 50. -/
def na0 : OrderBookEntry := { price := (11 : Rat) / 20, size := 50 }

/-- YES fixture book. -/
def yesBook0 : OrderBook :=
  { market := "m1", asset_id := "yt", bids := [], asks := [ya0]
    hash := "", timestamp := "" }

/-- NO fixture book. -/
def noBook0 : OrderBook :=
  { market := "m1", asset_id := "nt", bids := [], asks := [na0]
    hash := "", timestamp := "" }

/-- Fixture market pair. -/
def pair0 : MarketPair :=
  { condition_id := "m1", yes_token_id := "yt", no_token_id := "nt"
    description := "Will BTC go up".data }

/-- Fixture token-to-book map holding both fixture books. -/
def books0 : List (String × OrderBook) := [("yt", yesBook0), ("nt", noBook0)]

/-- Market pair whose description is 31 bytes long with a two-byte
character straddling byte index 30 (29 ASCII characters followed by a
two-byte character). -/
def pair9 : MarketPair :=
  { condition_id := "m9", yes_token_id := "y9", no_token_id := "n9"
    description := List.replicate 29 'a' ++ ['é'] }

/-- YES book for pair9 with an empty ask side. -/
def yesBook9 : OrderBook :=
  { market := "m9", asset_id := "y9", bids := [], asks := []
    hash := "", timestamp := "" }

/-- NO book for pair9 with one ask. -/
def noBook9 : OrderBook :=
  { market := "m9", asset_id := "n9", bids := []
    asks := [{ price := (1 : Rat) / 2, size := 1 }]
    hash := "", timestamp := "" }

/-- Token-to-book map for pair9. -/
def books9 : List (String × OrderBook) := [("y9", yesBook9), ("n9", noBook9)]

/-- A stale cached pair under condition id A. -/
def pairA0 : MarketPair :=
  { condition_id := "A", yes_token_id := "A-yes", no_token_id := "A-no"
    description := "Old market".data }

/-- A cache holding only the stale pair pairA0. -/
def cacheA0 : MarketCache := cacheInsert (fun _ => none) "A" pairA0

/-- A freshly fetched qualifying market under condition id B. -/
def marketB0 : Market :=
  { condition_id := "B"
    tokens :=
      [ { token_id := "B-yes", outcome := "Yes".data }
      , { token_id := "B-no", outcome := "No".data } ]
    question := some "Will ETH go up".data }

/-- The pair extracted from marketB0. -/
def pairB0 : MarketPair :=
  { condition_id := "B", yes_token_id := "B-yes", no_token_id := "B-no"
    description := "Will ETH go up".data }

/-- Fixture opportunity with max_size 5. -/
def oppX : ArbitrageOpportunity :=
  { market_id := "m1", yes_token_id := "yt", no_token_id := "nt"
    yes_ask_price := (2 : Rat) / 5, no_ask_price := (11 : Rat) / 20
    combined_price := (19 : Rat) / 20, profit_per_share := (1 : Rat) / 20
    max_size := 5, timestamp := 0 }

/-- A successful venue response for one order. -/
def respOk : Except String (List PostOrderResponse) :=
  .ok [{ success := true, error_msg := none, order_id := "o1"
         transaction_hashes := ["0xabc"] }]

/-- A failed venue response for one order. -/
def respFail : Except String (List PostOrderResponse) :=
  .ok [{ success := false, error_msg := some "not enough balance"
         order_id := "o2", transaction_hashes := [] }]

/-- A venue transport error for one order. -/
def respErr : Except String (List PostOrderResponse) :=
  .error "venue unreachable"

/-- Fresh statistics. -/
def stats0 : BotStats := {}

/-! Theorems. -/

/-- Unfolding lemma: when both books are found and both have a best ask,
the detector reduces to the threshold test on the best asks. -/
theorem check_arbitrage_of_books (cfg : Config) (dbg : Bool) (pair : MarketPair)
    (book_map : List (String × OrderBook)) (now : Nat)
    (yb nb : OrderBook) (ya na : OrderBookEntry)
    (hy : book_map.lookup pair.yes_token_id = some yb)
    (hn : book_map.lookup pair.no_token_id = some nb)
    (hya : yb.asks.head? = some ya)
    (hna : nb.asks.head? = some na) :
    check_arbitrage cfg dbg pair book_map now =
      .ok (if ya.price + na.price < cfg.max_combined_price ∧
              cfg.min_profit_threshold ≤ 1 - (ya.price + na.price) then
            some
              { market_id := pair.condition_id
                yes_token_id := pair.yes_token_id
                no_token_id := pair.no_token_id
                yes_ask_price := ya.price
                no_ask_price := na.price
                combined_price := ya.price + na.price
                profit_per_share := 1 - (ya.price + na.price)
                max_size := min ya.size na.size
                timestamp := now }
           else none) := by
  simp only [check_arbitrage, hy, hn, hya, hna]
  split <;> rfl

/-- C1: for every market pair and token-to-book map in which both books
are present and have at least one ask entry, check_arbitrage returns an
opportunity if and only if the combined best-ask price is strictly
below max_combined_price and the profit per share is at least
min_profit_threshold; at combined price equal to the ceiling nothing is
returned, and at profit exactly equal to the floor (with the price
condition met) an opportunity is returned. -/
theorem c1_signal_iff_thresholds (cfg : Config) (dbg : Bool) (pair : MarketPair)
    (book_map : List (String × OrderBook)) (now : Nat)
    (yb nb : OrderBook) (ya na : OrderBookEntry)
    (hy : book_map.lookup pair.yes_token_id = some yb)
    (hn : book_map.lookup pair.no_token_id = some nb)
    (hya : yb.asks.head? = some ya)
    (hna : nb.asks.head? = some na) :
    ∃ r : Option ArbitrageOpportunity,
      check_arbitrage cfg dbg pair book_map now = .ok r
      ∧ (r.isSome ↔ (ya.price + na.price < cfg.max_combined_price ∧
            cfg.min_profit_threshold ≤ 1 - (ya.price + na.price)))
      ∧ (ya.price + na.price = cfg.max_combined_price → r = none)
      ∧ ((ya.price + na.price < cfg.max_combined_price ∧
            1 - (ya.price + na.price) = cfg.min_profit_threshold) → r.isSome) := by
  rw [check_arbitrage_of_books cfg dbg pair book_map now yb nb ya na hy hn hya hna]
  by_cases h : ya.price + na.price < cfg.max_combined_price ∧
      cfg.min_profit_threshold ≤ 1 - (ya.price + na.price)
  · refine ⟨_, by rw [if_pos h], ?_, ?_, ?_⟩
    · simp [h]
    · intro heq
      exact absurd h.1 (by rw [heq]; exact lt_irrefl _)
    · intro _
      simp
  · refine ⟨none, by rw [if_neg h], ?_, ?_, ?_⟩
    · simp [h]
    · intro _
      rfl
    · intro hcon
      exact absurd ⟨hcon.1, le_of_eq hcon.2.symm⟩ h

/-- Witness for c1_signal_iff_thresholds at the fixture input (YES ask
0.40 size 100, NO ask 0.55 size 50, default thresholds). -/
theorem c1_signal_iff_thresholds_witness :
    ∃ r : Option ArbitrageOpportunity,
      check_arbitrage cfg0 false pair0 books0 0 = .ok r
      ∧ (r.isSome ↔ (ya0.price + na0.price < cfg0.max_combined_price ∧
            cfg0.min_profit_threshold ≤ 1 - (ya0.price + na0.price)))
      ∧ (ya0.price + na0.price = cfg0.max_combined_price → r = none)
      ∧ ((ya0.price + na0.price < cfg0.max_combined_price ∧
            1 - (ya0.price + na0.price) = cfg0.min_profit_threshold) → r.isSome) :=
  c1_signal_iff_thresholds cfg0 false pair0 books0 0 yesBook0 noBook0 ya0 na0
    (by decide) (by decide) rfl rfl

/-- C5: whenever the detector is evaluated on two present books with
best asks, any returned opportunity carries combined_price equal to the
sum of the two best ask prices, profit_per_share equal to one minus the
combined price, max_size equal to the minimum of the two best ask
sizes, and the two leg prices themselves; the arithmetic is the exact
decimal arithmetic of the Rat model and repeated evaluation of the same
inputs yields the same value. -/
theorem c5_opportunity_fields (cfg : Config) (dbg : Bool) (pair : MarketPair)
    (book_map : List (String × OrderBook)) (now : Nat)
    (yb nb : OrderBook) (ya na : OrderBookEntry)
    (hy : book_map.lookup pair.yes_token_id = some yb)
    (hn : book_map.lookup pair.no_token_id = some nb)
    (hya : yb.asks.head? = some ya)
    (hna : nb.asks.head? = some na) :
    ∃ r : Option ArbitrageOpportunity,
      check_arbitrage cfg dbg pair book_map now = .ok r
      ∧ (∀ opp, r = some opp →
          opp.combined_price = ya.price + na.price
          ∧ opp.profit_per_share = 1 - opp.combined_price
          ∧ opp.max_size = min ya.size na.size
          ∧ opp.yes_ask_price = ya.price
          ∧ opp.no_ask_price = na.price)
      ∧ check_arbitrage cfg dbg pair book_map now =
          check_arbitrage cfg dbg pair book_map now := by
  rw [check_arbitrage_of_books cfg dbg pair book_map now yb nb ya na hy hn hya hna]
  by_cases h : ya.price + na.price < cfg.max_combined_price ∧
      cfg.min_profit_threshold ≤ 1 - (ya.price + na.price)
  · rw [if_pos h]
    refine ⟨_, rfl, ?_, rfl⟩
    intro opp hopp
    injection hopp with h2
    subst h2
    exact ⟨rfl, rfl, rfl, rfl, rfl⟩
  · rw [if_neg h]
    exact ⟨none, rfl, fun opp hopp => Option.noConfusion hopp, rfl⟩

/-- Witness for c5_opportunity_fields at the fixture input. -/
theorem c5_opportunity_fields_witness :
    ∃ r : Option ArbitrageOpportunity,
      check_arbitrage cfg0 false pair0 books0 0 = .ok r
      ∧ (∀ opp, r = some opp →
          opp.combined_price = ya0.price + na0.price
          ∧ opp.profit_per_share = 1 - opp.combined_price
          ∧ opp.max_size = min ya0.size na0.size
          ∧ opp.yes_ask_price = ya0.price
          ∧ opp.no_ask_price = na0.price)
      ∧ check_arbitrage cfg0 false pair0 books0 0 =
          check_arbitrage cfg0 false pair0 books0 0 :=
  c5_opportunity_fields cfg0 false pair0 books0 0 yesBook0 noBook0 ya0 na0
    (by decide) (by decide) rfl rfl

/-- C6 counterexample: two invocations of check_arbitrage with
identical pair, book map and configuration but made at different clock
instants differ, because the timestamp field of the returned
opportunity is read from the ambient clock. -/
theorem c6_counterexample :
    check_arbitrage cfg0 false pair0 books0 0 ≠
      check_arbitrage cfg0 false pair0 books0 1 := by
  decide

/-- C6 amended: check_arbitrage is deterministic in every field except
the detection timestamp; the two clock parameters are the only source
of variation, so after erasing the timestamp field the results of any
two invocations on identical pair, book map and configuration agree
(and with equal clock readings the full results agree, by reflexivity
of equality of a pure function application). -/
theorem c6_deterministic_up_to_timestamp (cfg : Config) (dbg : Bool)
    (pair : MarketPair) (book_map : List (String × OrderBook)) (t u : Nat) :
    (check_arbitrage cfg dbg pair book_map t).map (Option.map eraseTimestamp) =
      (check_arbitrage cfg dbg pair book_map u).map (Option.map eraseTimestamp) := by
  cases hy : book_map.lookup pair.yes_token_id with
  | none => simp [check_arbitrage, hy]
  | some yb =>
    cases hn : book_map.lookup pair.no_token_id with
    | none => simp [check_arbitrage, hy, hn]
    | some nb =>
      cases hya : yb.asks.head? with
      | none => simp [check_arbitrage, hy, hn, hya]
      | some ya =>
        cases hna : nb.asks.head? with
        | none => simp [check_arbitrage, hy, hn, hya, hna]
        | some na =>
          rw [check_arbitrage_of_books cfg dbg pair book_map t yb nb ya na hy hn hya hna,
            check_arbitrage_of_books cfg dbg pair book_map u yb nb ya na hy hn hya hna]
          split_ifs <;> rfl

/-- C9 evaluated at the failing input: a market pair whose description
has a two-byte character straddling byte index 30, with both books
present but the YES ask side empty, drives check_arbitrage into its
info-logging early return, whose byte slice of the description falls
inside a character: the Rust code panics there (modelled as the error
case), instead of returning None. -/
theorem c9_check_arbitrage_panics :
    check_arbitrage cfg0 false pair9 books9 0 =
      .error "byte index 30 is not a char boundary" := by
  decide

/-- Lookup and count characterization of the refresh fold: the final
cache answers with the last inserted pair under the key when there is
one and with the previous cache entry otherwise, and the count grows by
the number of extracted pairs. -/
theorem refresh_fold_spec (ms : List Market) (c : MarketCache) (n : Nat)
    (k : String) :
    ((ms.foldl refreshStep (c, n)).1 k =
      match lastAssoc k (ms.filterMap extract_market_pair) with
      | some p => some p
      | none => c k)
    ∧ (ms.foldl refreshStep (c, n)).2 =
        n + (ms.filterMap extract_market_pair).length := by
  induction ms generalizing c n with
  | nil => exact ⟨rfl, rfl⟩
  | cons m ms ih =>
    simp only [List.foldl_cons, List.filterMap_cons]
    cases hm : extract_market_pair m with
    | none =>
      simp only [refreshStep, hm]
      exact ih c n
    | some p =>
      simp only [refreshStep, hm]
      constructor
      · rw [(ih (cacheInsert c p.condition_id p) (n + 1)).1]
        cases hrest : lastAssoc k (ms.filterMap extract_market_pair) with
        | some q => simp [lastAssoc, hrest]
        | none =>
          simp only [lastAssoc, hrest, cacheInsert]
          by_cases hk : p.condition_id = k
          · simp [hk]
          · have hk2 : ¬ (k = p.condition_id) := fun h => hk h.symm
            simp [hk, hk2]
      · rw [(ih (cacheInsert c p.condition_id p) (n + 1)).2]
        simp only [List.length_cons]
        omega

/-- C2 counterexample: starting from a cache holding a pair under
condition id A, a refresh whose fetched list holds only a market with
condition id B leaves the stale entry A in the cache; the cache after a
successful refresh is therefore not exactly the set of pairs extracted
from the latest fetched list. -/
theorem c2_counterexample :
    (refresh_markets cfg0 cacheA0 [marketB0]).1 "A" = some pairA0
    ∧ extract_market_pair marketB0 = some pairB0
    ∧ pairB0.condition_id ≠ "A" := by
  decide

/-- C2 amended: refresh_markets inserts the qualifying pairs of the
truncated fetched list one by one into the EXISTING cache. Afterwards a
key answers with the last extracted pair carrying it when there is one
and with its previous entry otherwise -- entries whose key is absent
from the new list survive, so the replacement is accumulative rather
than wholesale -- and the returned count is the number of extracted
pairs. (The DashMap of the source is updated per entry during the loop,
not swapped as one snapshot.) -/
theorem c2_refresh_accumulates (cfg : Config) (cache : MarketCache)
    (markets : List Market) (k : String) :
    ((refresh_markets cfg cache markets).1 k =
      match lastAssoc k ((markets.take cfg.max_markets).filterMap
          extract_market_pair) with
      | some p => some p
      | none => cache k)
    ∧ (refresh_markets cfg cache markets).2 =
        ((markets.take cfg.max_markets).filterMap extract_market_pair).length := by
  have h := refresh_fold_spec (markets.take cfg.max_markets) cache 0 k
  unfold refresh_markets
  exact ⟨h.1, by rw [h.2]; exact Nat.zero_add _⟩

/-- C3 counterexample: the engine itself does not clamp the requested
size to the opportunity max_size: called with requested size 10 on an
opportunity whose max_size is 5, the YES leg is priced with size 10,
not with min 10 5 = 5. -/
theorem c3_counterexample :
    (execute_arbitrage oppX 10 respErr respErr).yes_order.usdc_amount ≠
      min 10 oppX.max_size * oppX.yes_ask_price := by
  decide

/-- C3 amended: the engine prices and submits both legs at exactly the
requested size (quote amount = size times that leg ask price, both legs
buys), performing neither a clamp to max_size nor a minimum-size floor
check; the clamping and the floor live in the caller: every engine
invocation recorded by handle_opportunity uses size equal to
min of the configured order size and the opportunity max_size, that
size is at least one, and it happens only outside dry-run mode. -/
theorem c3_engine_size_passthrough (opp : ArbitrageOpportunity)
    (size : Decimal) (yr nr : Except String (List PostOrderResponse))
    (cfg : Config) (stats : BotStats) (venue : VenueOutcome)
    (call : EngineCall)
    (hcall : call ∈ (handle_opportunity cfg opp stats venue).2) :
    (execute_arbitrage opp size yr nr).yes_order.usdc_amount =
        size * opp.yes_ask_price
    ∧ (execute_arbitrage opp size yr nr).no_order.usdc_amount =
        size * opp.no_ask_price
    ∧ (execute_arbitrage opp size yr nr).yes_order.side = .Buy
    ∧ (execute_arbitrage opp size yr nr).no_order.side = .Buy
    ∧ call.opportunity = opp
    ∧ call.size = min cfg.order_size opp.max_size
    ∧ 1 ≤ call.size
    ∧ cfg.dry_run = false := by
  simp only [handle_opportunity] at hcall
  split_ifs at hcall with hd hs
  · exact absurd hcall (List.not_mem_nil _)
  · exact absurd hcall (List.not_mem_nil _)
  · simp only [List.mem_singleton] at hcall
    subst hcall
    simp only [Bool.not_eq_true] at hd
    exact ⟨rfl, rfl, rfl, rfl, rfl, rfl, le_of_not_lt hs, hd⟩

/-- Witness for c3_engine_size_passthrough: live configuration, the
fixture opportunity with max_size 5 and configured order size 10, one
successful and one failed response. -/
theorem c3_engine_size_passthrough_witness :
    (execute_arbitrage oppX 10 respOk respFail).yes_order.usdc_amount =
        10 * oppX.yes_ask_price
    ∧ (execute_arbitrage oppX 10 respOk respFail).no_order.usdc_amount =
        10 * oppX.no_ask_price
    ∧ (execute_arbitrage oppX 10 respOk respFail).yes_order.side = .Buy
    ∧ (execute_arbitrage oppX 10 respOk respFail).no_order.side = .Buy
    ∧ (⟨oppX, min cfgLive.order_size oppX.max_size⟩ : EngineCall).opportunity =
        oppX
    ∧ (⟨oppX, min cfgLive.order_size oppX.max_size⟩ : EngineCall).size =
        min cfgLive.order_size oppX.max_size
    ∧ 1 ≤ (⟨oppX, min cfgLive.order_size oppX.max_size⟩ : EngineCall).size
    ∧ cfgLive.dry_run = false :=
  c3_engine_size_passthrough oppX 10 respOk respFail cfgLive stats0
    (.submitted respOk respFail) ⟨oppX, min cfgLive.order_size oppX.max_size⟩
    (by decide)

/-- The engine returns both converted leg results unchanged. -/
theorem execute_arbitrage_results (opp : ArbitrageOpportunity) (size : Decimal)
    (yr nr : Except String (List PostOrderResponse)) :
    (execute_arbitrage opp size yr nr).yes_result = convert_response yr
    ∧ (execute_arbitrage opp size yr nr).no_result = convert_response nr :=
  ⟨rfl, rfl⟩

/-- C4: whenever exactly one of the two legs succeeds, the engine emits
exactly one alert, of the highest severity used by the program,
correctly naming the SUCCESSFUL side as the unhedged one; both leg
results are still returned to the caller, and the dispatch in main.rs
leaves trades_successful and the cumulative profit unchanged. -/
theorem c4_partial_execution_alert (cfg : Config) (opp : ArbitrageOpportunity)
    (stats : BotStats) (yr nr : Except String (List PostOrderResponse))
    (size : Decimal)
    (hpart : (convert_response yr).success ≠ (convert_response nr).success) :
    (execute_arbitrage opp size yr nr).alerts =
      [{ severity := .errorLevel
         market_id := opp.market_id
         unhedged_side := if (convert_response yr).success then "YES" else "NO" }]
    ∧ (execute_arbitrage opp size yr nr).yes_result = convert_response yr
    ∧ (execute_arbitrage opp size yr nr).no_result = convert_response nr
    ∧ (handle_opportunity cfg opp stats (.submitted yr nr)).1.trades_successful =
        stats.trades_successful
    ∧ (handle_opportunity cfg opp stats (.submitted yr nr)).1.total_profit =
        stats.total_profit := by
  have hsucc : ((convert_response yr).success && (convert_response nr).success)
      = false := by
    cases h1 : (convert_response yr).success <;>
      cases h2 : (convert_response nr).success <;> simp_all
  refine ⟨?_, rfl, rfl, ?_, ?_⟩
  · have halerts : (execute_arbitrage opp size yr nr).alerts =
        [handle_partial_execution (convert_response yr) (convert_response nr)
          opp] := by
      simp [execute_arbitrage, hpart]
    rw [halerts]
    cases h : (convert_response yr).success <;>
      simp [handle_partial_execution, h]
  · simp only [handle_opportunity]
    split_ifs with hd hs hexec
    · rfl
    · rfl
    · have hexec2 : ((convert_response yr).success &&
          (convert_response nr).success) = true := hexec
      rw [hsucc] at hexec2
      exact Bool.noConfusion hexec2
    · rfl
  · simp only [handle_opportunity]
    split_ifs with hd hs hexec
    · rfl
    · rfl
    · have hexec2 : ((convert_response yr).success &&
          (convert_response nr).success) = true := hexec
      rw [hsucc] at hexec2
      exact Bool.noConfusion hexec2
    · rfl

/-- Witness for c4_partial_execution_alert: YES succeeds, NO fails. -/
theorem c4_partial_execution_alert_witness :
    (execute_arbitrage oppX 5 respOk respFail).alerts =
      [{ severity := .errorLevel
         market_id := oppX.market_id
         unhedged_side := if (convert_response respOk).success then "YES" else "NO" }]
    ∧ (execute_arbitrage oppX 5 respOk respFail).yes_result =
        convert_response respOk
    ∧ (execute_arbitrage oppX 5 respOk respFail).no_result =
        convert_response respFail
    ∧ (handle_opportunity cfgLive oppX stats0
        (.submitted respOk respFail)).1.trades_successful =
        stats0.trades_successful
    ∧ (handle_opportunity cfgLive oppX stats0
        (.submitted respOk respFail)).1.total_profit = stats0.total_profit :=
  c4_partial_execution_alert cfgLive oppX stats0 respOk respFail 5 (by decide)

/-- The doubling step maps the capped power below the cap to the next
capped power. -/
theorem next_reconnect_delay_pow (j : Nat) :
    next_reconnect_delay (min (2 ^ j) 60) = min (2 ^ (j + 1)) 60 := by
  have hs : (2 : Nat) ^ (j + 1) = 2 ^ j * 2 := pow_succ 2 j
  simp only [next_reconnect_delay, max_reconnect_delay]
  omega

/-- Delays slept over a run of consecutive failures starting from a
capped power of two. -/
theorem ws_loop_delays_failures (n : Nat) : ∀ j : Nat,
    ws_loop_delays (min (2 ^ j) 60) (List.replicate n false) =
      (List.range n).map (fun k => min (2 ^ (j + k)) 60) := by
  induction n with
  | zero => intro j; rfl
  | succ n ih =>
    intro j
    rw [List.replicate_succ, List.range_succ_eq_map]
    show (min (2 ^ j) 60) ::
        ws_loop_delays (next_reconnect_delay (min (2 ^ j) 60))
          (List.replicate n false) =
      ((fun k => min (2 ^ (j + k)) 60) 0) ::
        ((List.range n).map Nat.succ).map (fun k => min (2 ^ (j + k)) 60)
    rw [next_reconnect_delay_pow j, ih (j + 1), List.map_map]
    refine congrArg₂ _ (by simp) ?_
    apply List.map_congr_left
    intro a _
    have he : j + 1 + a = j + (a + 1) := by omega
    simp [Function.comp, he]

/-- C7: over any run of n consecutive connection failures starting from
the initial state, the delay slept before the k-th reattempt (counting
from zero) is min of 2 to the k and 60 -- the sequence 1, 2, 4, 8, 16,
32, 60, 60, 60 and so on -- and any successful connection resets the
delay slept after it to the initial one-second value, with the
following delay restarting the doubling from there. -/
theorem c7_backoff_sequence :
    (∀ n : Nat,
      ws_loop_delays initial_reconnect_delay (List.replicate n false) =
        (List.range n).map (fun k => min (2 ^ k) max_reconnect_delay))
    ∧ (∀ (d : Nat) (rest : List Bool),
      ws_loop_delays d (true :: rest) =
        initial_reconnect_delay ::
          ws_loop_delays (next_reconnect_delay initial_reconnect_delay) rest) := by
  constructor
  · intro n
    have h := ws_loop_delays_failures n 0
    simpa [initial_reconnect_delay, max_reconnect_delay] using h
  · intro d rest
    rfl

/-- C8: with dry_run enabled, handle_opportunity returns without
invoking the execution engine (the call list is empty) and every
statistics counter is unchanged. -/
theorem c8_dry_run_frame (cfg : Config) (opp : ArbitrageOpportunity)
    (stats : BotStats) (venue : VenueOutcome) (h : cfg.dry_run = true) :
    handle_opportunity cfg opp stats venue = (stats, [])
    ∧ (handle_opportunity cfg opp stats venue).1.trades_executed =
        stats.trades_executed
    ∧ (handle_opportunity cfg opp stats venue).1.trades_successful =
        stats.trades_successful
    ∧ (handle_opportunity cfg opp stats venue).1.total_profit =
        stats.total_profit := by
  have h0 : handle_opportunity cfg opp stats venue = (stats, []) := by
    simp [handle_opportunity, h]
  exact ⟨h0, by rw [h0], by rw [h0], by rw [h0]⟩

/-- Witness for c8_dry_run_frame: the default configuration has
dry_run enabled. -/
theorem c8_dry_run_frame_witness :
    handle_opportunity cfg0 oppX stats0 (.submitted respOk respOk) = (stats0, [])
    ∧ (handle_opportunity cfg0 oppX stats0
        (.submitted respOk respOk)).1.trades_executed = stats0.trades_executed
    ∧ (handle_opportunity cfg0 oppX stats0
        (.submitted respOk respOk)).1.trades_successful =
        stats0.trades_successful
    ∧ (handle_opportunity cfg0 oppX stats0
        (.submitted respOk respOk)).1.total_profit = stats0.total_profit :=
  c8_dry_run_frame cfg0 oppX stats0 (.submitted respOk respOk) rfl

/-- C10: WsClient::connect called with an empty token-id list fails
with the guard error and performs no action at all: no transport
connection attempt and no subscription send. -/
theorem c10_connect_empty_rejected (transport : Except String Unit) :
    WsClient.connect [] transport =
      ([], .error "No token IDs to subscribe to") :=
  rfl
